import Mathlib

/-!
Shallow embedding of the core of the vscode-rewrap extension
(`src/Main.ts`): configuration resolution, edit synthesis, edit
application and the command/selection lifecycle, together with theorems
checking the natural-language specification against the code.

Modelling conventions:
* Configuration and editor numbers come from JSON / the VS Code API, so
  they are modelled as rationals (`ℚ`); `Number.isInteger q` is `q.den = 1`.
  A setting that may be `undefined` is an `Option`.
* The external interface contract says the generic `editor.rulers`
  setting is an ordered integer list (the host registers it with a
  default of `[]`), so it is modelled as a `List ℚ`, never absent.
* A JavaScript function that may throw is embedded as returning
  `Except Unit`; `await` on the host edit promise is embedded as
  sequential composition, and the observable interaction with the host
  is recorded as an ordered trace of `HostCall`s.
-/

namespace Rewrap

/-- The environment settings read by `getOptionsFromEnvironment` /
`getWrappingColumn` / `getTabSize`: a snapshot of the configuration and
editor state at the moment of invocation. -/
structure Env where
  /-- `workspace.getConfiguration('rewrap').get<number>('wrappingColumn')`:
  optional, possibly invalid number. -/
  extensionColumn : Option ℚ
  /-- `workspace.getConfiguration('editor').get<number[]>('rulers')`: an
  ordered list (the host guarantees a list, defaulting to `[]`). -/
  rulers : List ℚ
  /-- `workspace.getConfiguration('editor').get<number>('wrappingColumn')`. -/
  editorColumn : Option ℚ
  /-- `editor.options.tabSize as number`: `none` models `undefined` or a
  non-number value such as the string `auto`. -/
  editorTabSize : Option ℚ
  /-- The user-set value of `rewrap.doubleSentenceSpacing`, `none` when the
  user has not set it. -/
  doubleSentenceSpacing : Option Bool
deriving DecidableEq

/-- The diagnostics (`console.warn` calls) the configuration code can emit. -/
inductive Diag where
  /-- tabSize is an invalid value, using the default of 4 instead. -/
  | invalidTabSize (value : Option ℚ)
  /-- tabSize is large relative to wrappingColumn, unexpected results may occur. -/
  | largeTabSize (tabSize wrappingColumn : ℚ)
  /-- wrapping column is an invalid value, using the default of 80 instead. -/
  | invalidWrappingColumn (value : ℚ)
  /-- wrapping column is a rather large value. -/
  | largeWrappingColumn (value : ℚ)
deriving DecidableEq

/-- `Number.isInteger` on a (finite, JSON-valued) number. -/
def jsIsInteger (q : ℚ) : Bool := q.den == 1

/-- A value is a positive integer: the property the sanitized settings obey. -/
def isPosInt (q : ℚ) : Prop := q.den = 1 ∧ 1 ≤ q

instance (q : ℚ) : Decidable (isPosInt q) := by
  unfold isPosInt; infer_instance

/-- JavaScript `x || y` where `x` is a possibly-undefined number: the left
operand is kept when it is truthy (present and nonzero). -/
def jsOrNum (x : Option ℚ) (y : ℚ) : ℚ :=
  match x with
  | some q => if q = 0 then y else q
  | none => y

/-- The operand `(0 < editorColumn && editorColumn < 300) && editorColumn` of
`getWrappingColumn`: the guarded editor column, `none` standing for the JS
value `false` (falsy) when the guard fails or the setting is undefined. -/
def guardedEditorColumn (editorColumn : Option ℚ) : Option ℚ :=
  match editorColumn with
  | some e => if 0 < e ∧ e < 300 then some e else none
  | none => none

/-- The value the chain `extensionColumn || rulers[0] || ((0 < editorColumn &&
editorColumn < 300) && editorColumn) || 80` selects in `getWrappingColumn`
(`Main.ts` lines 175-181), before sanitization. `rulers[0]` on an empty list
is `undefined`, hence `List.head?`. -/
def chooseWrappingColumn (env : Env) : ℚ :=
  jsOrNum env.extensionColumn
    (jsOrNum env.rulers.head?
      (jsOrNum (guardedEditorColumn env.editorColumn) 80))

/-- The sanitizing half of `getWrappingColumn` (`Main.ts` lines 183-194): a
chosen value that is not a positive integer is reset to 80 with a
diagnostic; a value above 120 is kept but flagged as large. -/
def sanitizeWrappingColumn (wrappingColumn : ℚ) : ℚ × List Diag :=
  if jsIsInteger wrappingColumn = false ∨ wrappingColumn < 1 then
    (80, [Diag.invalidWrappingColumn wrappingColumn])
  else if 120 < wrappingColumn then
    (wrappingColumn, [Diag.largeWrappingColumn wrappingColumn])
  else
    (wrappingColumn, [])

/-- `getWrappingColumn` (`Main.ts` lines 167-197): choose by precedence, then
sanitize. Returns the column and the diagnostics. -/
def getWrappingColumn (env : Env) : ℚ × List Diag :=
  sanitizeWrappingColumn (chooseWrappingColumn env)

/-- The sanitizing half of `getTabSize` (`Main.ts` lines 144-152): a value
that is not a positive integer (including an absent or non-number one) is
replaced by 4 with a diagnostic. -/
def sanitizeTabSize : Option ℚ → ℚ × List Diag
  | some q =>
    if jsIsInteger q = false ∨ q < 1 then (4, [Diag.invalidTabSize (some q)])
    else (q, [])
  | none => (4, [Diag.invalidTabSize none])

/-- `getTabSize` (`Main.ts` lines 142-162): sanitize, then warn (without
changing the value) when the tab size exceeds half the wrapping column. -/
def getTabSize (editorTabSize : Option ℚ) (wrappingColumn : ℚ) : ℚ × List Diag :=
  let s := sanitizeTabSize editorTabSize
  (s.1,
    s.2 ++ if wrappingColumn / 2 < s.1 then [Diag.largeTabSize s.1 wrappingColumn] else [])

/-- Modelled from the spec: the configuration manifest of the extension
(`package.json`, not under `src/`) declares the default for the
`rewrap.doubleSentenceSpacing` setting, and section 4.1 of the spec states
"boolean passthrough, default `false` if absent"; `get` therefore yields the
user value when set and the declared default `false` otherwise. -/
def getDoubleSentenceSpacingSetting (userValue : Option Bool) : Bool :=
  userValue.getD false

/-- The sanitized options record (`WrappingOptions` of `DocumentProcessor`). -/
structure WrappingOptions where
  wrappingColumn : ℚ
  tabSize : ℚ
  doubleSentenceSpacing : Bool
deriving DecidableEq

/-- `getOptionsFromEnvironment` (`Main.ts` lines 128-137): resolve the
wrapping column, then the tab size (which receives the resolved column),
then the double-sentence-spacing flag. Diagnostics go to the console and do
not alter the result, so only the values are returned here. -/
def getOptionsFromEnvironment (env : Env) : WrappingOptions :=
  let wrappingColumn := (getWrappingColumn env).1
  let tabSize := (getTabSize env.editorTabSize wrappingColumn).1
  let doubleSentenceSpacing := getDoubleSentenceSpacingSetting env.doubleSentenceSpacing
  ⟨wrappingColumn, tabSize, doubleSentenceSpacing⟩

/-- The wrapping-column precedence exactly as the claim words it: the first
DEFINED value in order (extension column, first ruler entry, the guarded
editor column, 80), with no truthiness test on the first two. Stated from
the claim for comparison with `chooseWrappingColumn`. -/
def specFirstDefinedColumn (env : Env) : ℚ :=
  match env.extensionColumn with
  | some q => q
  | none =>
    match env.rulers.head? with
    | some r => r
    | none =>
      match env.editorColumn with
      | some e => if 0 < e ∧ e < 300 then e else 80
      | none => 80

/-- The editor-column / fallback tail of the amended precedence. -/
def specFirstTruthyColumnEditor (env : Env) : ℚ :=
  match env.editorColumn with
  | some e => if 0 < e ∧ e < 300 then e else 80
  | none => 80

/-- The ruler / editor-column / fallback tail of the amended precedence. -/
def specFirstTruthyColumnRulers (env : Env) : ℚ :=
  match env.rulers.head? with
  | some r => if r ≠ 0 then r else specFirstTruthyColumnEditor env
  | none => specFirstTruthyColumnEditor env

/-- The amended precedence: the first defined AND nonzero (truthy) value
among the extension column and the first ruler entry, then the editor column
when strictly between 0 and 300, then 80. -/
def specFirstTruthyColumn (env : Env) : ℚ :=
  match env.extensionColumn with
  | some q => if q ≠ 0 then q else specFirstTruthyColumnRulers env
  | none => specFirstTruthyColumnRulers env

/-- A position (line, character), both zero-indexed, as in the host API. -/
structure Position where
  line : ℕ
  character : ℕ
deriving DecidableEq

/-- A selection: an anchor and an active position. -/
structure Selection where
  anchor : Position
  active : Position
deriving DecidableEq

/-- An `Edit` (from `DocumentProcessor`): replace document lines
`[startLine, endLine)` with `lines`. -/
structure Edit where
  startLine : ℕ
  endLine : ℕ
  lines : List String
deriving DecidableEq

/-- A host range, `new Range(startLine, startChar, endLine, endChar)`. The
field `stop` stands for the range's `end` (a reserved word here). -/
structure Range where
  start : Position
  stop : Position
deriving DecidableEq

/-- `Number.MAX_VALUE` is the integer `(2^53 - 1) * 2^971`; used by
`applyEdits` as the end-of-line sentinel character value. -/
def numberMaxValue : ℕ := (2 ^ 53 - 1) * 2 ^ 971

/-- The line separator `applyEdits` joins replacement lines with
(the literal used by `e.lines.join` in the source). -/
def lineTerminator : String := "\n"

/-- One call of the host primitive `builder.replace(range, text)`. The range
recorded is the one the applicator constructs; `document.validateRange` is
the host clamping it to document bounds, which the spec assigns to the host
side of the boundary. -/
structure ReplaceCall where
  range : Range
  text : String
deriving DecidableEq

/-- `applyEdits` (`Main.ts` lines 73-83): for each edit, in order, issue one
`builder.replace` over the range from `(startLine, 0)` to `(endLine,
Number.MAX_VALUE)` with the edit's lines joined by the line terminator. -/
def applyEdits (edits : List Edit) : List ReplaceCall :=
  edits.foldl
    (fun builder e =>
      builder ++
        [⟨⟨⟨e.startLine, 0⟩, ⟨e.endLine, numberMaxValue⟩⟩,
          String.intercalate lineTerminator e.lines⟩])
    []

/-- The result of the external Section Partitioner: primary and secondary
sections. The section type is abstract (`σ`), since `Section.ts` is outside
the embedded core. -/
structure Sections (σ : Type) where
  primary : List σ
  secondary : List σ

/-- The external document processor consumed by the core: `findSections`
partitions the document; `editSection` wraps one selected section and may
throw, which is embedded as `Except Unit`. -/
structure DocumentProcessor (σ : Type) where
  findSections : List String → ℚ → Sections σ
  editSection : WrappingOptions → σ → Except Unit Edit

/-- JavaScript `list.map f` where `f` may throw: the elements are mapped in
order and the first exception propagates, producing no array at all. -/
def mapExc {α β : Type} (f : α → Except Unit β) : List α → Except Unit (List β)
  | [] => .ok []
  | a :: rest =>
    match f a with
    | .error e => .error e
    | .ok b =>
      match mapExc f rest with
      | .error e => .error e
      | .ok bs => .ok (b :: bs)

/-- `getEditsAndSelections` (`Main.ts` lines 88-115): find the sections,
select the ones the selections touch (external `Section.sectionsInSelections`),
map `editSection` over them (an exception propagates), and compute the
adjusted selections (external `adjustSelections`). -/
def getEditsAndSelections {σ : Type}
    (sectionsInSelections : List σ → List σ → List Selection → List σ)
    (adjustSelections : List String → List Selection → List Edit → List Selection)
    (documentProcessor : DocumentProcessor σ)
    (documentLines : List String) (selections : List Selection)
    (options : WrappingOptions) : Except Unit (List Edit × List Selection) :=
  let sections := documentProcessor.findSections documentLines options.tabSize
  let sectionsToEdit := sectionsInSelections sections.primary sections.secondary selections
  match mapExc (fun sectionToEdit => documentProcessor.editSection options sectionToEdit)
      sectionsToEdit with
  | .error e => .error e
  | .ok edits =>
    let adjustedSelections := adjustSelections documentLines selections edits
    .ok (edits, adjustedSelections)

/-- The observable calls the core makes on its boundary, in chronological
order: the batched edit submission, the selection assignment, and the
console/notification calls of the catch branch of the command handler. -/
inductive HostCall where
  | edit (calls : List ReplaceCall)
  | setSelections (selections : List Selection)
  | consoleError (message : String)
  | consoleLog
  | showInformationMessage (message : String)
deriving DecidableEq

/-- `wrapSomething` (`Main.ts` lines 53-70), as the ordered trace of host
calls plus the promise outcome. An exception from `getEditsAndSelections`
rejects the returned promise before any host call is made. On success the
source runs `await editor.edit(...)` and only then assigns
`editor.selections`; the boolean the edit promise resolves with
(`_editResolvedValue`) is discarded by the source, so the trace does not
depend on it. -/
def wrapSomething {σ : Type}
    (sectionsInSelections : List σ → List σ → List Selection → List σ)
    (adjustSelections : List String → List Selection → List Edit → List Selection)
    (documentProcessor : DocumentProcessor σ)
    (documentLines : List String) (selections : List Selection)
    (options : WrappingOptions) (_editResolvedValue : Bool) :
    List HostCall × Except Unit Unit :=
  match getEditsAndSelections sectionsInSelections adjustSelections documentProcessor
      documentLines selections options with
  | .error e => ([], .error e)
  | .ok (edits, newSelections) =>
    ([HostCall.edit (applyEdits edits), HostCall.setSelections newSelections], .ok ())

/-- The synchronous evaluation of the try block of the registered command
(`Main.ts` lines 28-31): resolve the options, then CALL the async
`wrapSomething`. By JavaScript semantics an async function never throws
synchronously — an abrupt completion inside it rejects the promise it
returns — and `getOptionsFromEnvironment` is total, so this synchronous
step always succeeds, yielding the promise (trace and outcome) unevaluated
by the try/catch. -/
def commandTryBody {σ : Type}
    (sectionsInSelections : List σ → List σ → List Selection → List σ)
    (adjustSelections : List String → List Selection → List Edit → List Selection)
    (documentProcessor : DocumentProcessor σ)
    (env : Env) (documentLines : List String) (selections : List Selection)
    (editResolvedValue : Bool) :
    Except Unit (List HostCall × Except Unit Unit) :=
  let options := getOptionsFromEnvironment env
  .ok (wrapSomething sectionsInSelections adjustSelections documentProcessor
        documentLines selections options editResolvedValue)

/-- The console message on the catch path. -/
def errSomethingHappened : String := "Rewrap: Something happened."

/-- The console message asking to report the issue. -/
def errPleaseReport : String := "Rewrap: Please report this at the issue tracker."

/-- The user-facing notification of the catch path. -/
def errNotification : String := "Sorry, there was an error in Rewrap."

/-- The command handler registered by `activate` (`Main.ts` lines 25-46):
`try` the synchronous body; the `catch` branch logs and shows a notification,
but it fires only on a synchronous throw, which `commandTryBody` can never
produce — so a rejection of the promise returned by `wrapSomething`
propagates to the host unhandled, with nothing logged and no notification
shown. -/
def rewrapCommandHandler {σ : Type}
    (sectionsInSelections : List σ → List σ → List Selection → List σ)
    (adjustSelections : List String → List Selection → List Edit → List Selection)
    (documentProcessor : DocumentProcessor σ)
    (env : Env) (documentLines : List String) (selections : List Selection)
    (editResolvedValue : Bool) :
    List HostCall × Except Unit Unit :=
  match commandTryBody sectionsInSelections adjustSelections documentProcessor
      env documentLines selections editResolvedValue with
  | .ok promise => promise
  | .error _ =>
    ([HostCall.consoleError errSomethingHappened,
      HostCall.consoleLog,
      HostCall.consoleError errPleaseReport,
      HostCall.showInformationMessage errNotification], .ok ())

/-- A section selector for concrete instances: every primary section is
selected. -/
def idSectionsInSelections : List ℕ → List ℕ → List Selection → List ℕ :=
  fun primary _ _ => primary

/-- A selection transformer for concrete instances: selections unchanged. -/
def idAdjustSelections : List String → List Selection → List Edit → List Selection :=
  fun _ selections _ => selections

/-- A caret at the document origin, for concrete instances. -/
def caretSelection : Selection := ⟨⟨0, 0⟩, ⟨0, 0⟩⟩

/-- Sanitized default options, for concrete instances. -/
def defaultOptions : WrappingOptions := ⟨80, 4, false⟩

/-- A processor with two primary sections whose wrapper throws on the first
section and succeeds on the second. -/
def failingFirstProcessor : DocumentProcessor ℕ :=
  ⟨fun _ _ => ⟨[0, 1], []⟩,
   fun _ s => if s = 0 then .error () else .ok ⟨1, 2, ["wrapped"]⟩⟩

/-- A processor with two primary sections whose wrapper throws on the second
section and succeeds on the first. -/
def failingSecondProcessor : DocumentProcessor ℕ :=
  ⟨fun _ _ => ⟨[0, 1], []⟩,
   fun _ s => if s = 1 then .error () else .ok ⟨0, 1, ["wrapped"]⟩⟩

/-- A processor with one primary section that always wraps successfully. -/
def okProcessor : DocumentProcessor ℕ :=
  ⟨fun _ _ => ⟨[0], []⟩, fun _ _ => .ok ⟨0, 1, ["wrapped line"]⟩⟩

/-- An environment with every optional setting absent and no rulers. -/
def envAllAbsent : Env := ⟨none, [], none, none, none⟩

/-- The fallback example environment: extension column unset, rulers empty,
editor column at the 300 sentinel. -/
def envFallbackSentinel : Env := ⟨none, [], some 300, some 4, none⟩

/-- The precedence example environment: extension column 100, rulers [72]. -/
def envPrecedence : Env := ⟨some 100, [72], none, some 4, none⟩

/-- The environment refuting the first-defined reading: extension column
set to 0 (defined but falsy), rulers [72]. -/
def envZeroExtension : Env := ⟨some 0, [72], none, some 4, none⟩

/-- An environment whose extension column is a large positive integer. -/
def envLargeColumn : Env := ⟨some 150, [], none, some 4, none⟩

/-- An environment with `doubleSentenceSpacing` set to true. -/
def envDssTrue : Env := ⟨none, [], none, none, some true⟩

/-- A two-line document for concrete instances. -/
def sampleDocument : List String := ["alpha", "beta"]

/-! Helper lemmas about the sanitizers and the throwing map. -/

lemma sanitizeWrappingColumn_posInt (w : ℚ) : isPosInt (sanitizeWrappingColumn w).1 := by
  unfold sanitizeWrappingColumn
  split_ifs with h1 h2
  · show isPosInt 80
    decide
  · show isPosInt w
    push_neg at h1
    exact ⟨by simpa [jsIsInteger] using h1.1, h1.2⟩
  · show isPosInt w
    push_neg at h1
    exact ⟨by simpa [jsIsInteger] using h1.1, h1.2⟩

lemma sanitizeWrappingColumn_invalid (w : ℚ) (h : ¬ isPosInt w) :
    (sanitizeWrappingColumn w).1 = 80 := by
  unfold sanitizeWrappingColumn
  rw [if_pos]
  rcases not_and_or.mp h with hd | hle
  · left
    simpa [jsIsInteger] using hd
  · right
    exact not_le.mp hle

lemma sanitizeWrappingColumn_large (w : ℚ) (h : isPosInt w) (hw : 120 < w) :
    sanitizeWrappingColumn w = (w, [Diag.largeWrappingColumn w]) := by
  unfold sanitizeWrappingColumn
  rw [if_neg, if_pos hw]
  push_neg
  exact ⟨by simp [jsIsInteger, h.1], h.2⟩

lemma sanitizeTabSize_posInt (ts : Option ℚ) : isPosInt (sanitizeTabSize ts).1 := by
  cases ts with
  | none =>
    show isPosInt 4
    decide
  | some q =>
    show isPosInt (if jsIsInteger q = false ∨ q < 1 then
      ((4 : ℚ), [Diag.invalidTabSize (some q)]) else (q, [])).1
    split_ifs with h
    · show isPosInt 4
      decide
    · show isPosInt q
      push_neg at h
      exact ⟨by simpa [jsIsInteger] using h.1, h.2⟩

lemma sanitizeTabSize_valid (q : ℚ) (h : isPosInt q) : sanitizeTabSize (some q) = (q, []) := by
  show (if jsIsInteger q = false ∨ q < 1 then
    ((4 : ℚ), [Diag.invalidTabSize (some q)]) else (q, [])) = (q, [])
  rw [if_neg]
  push_neg
  exact ⟨by simp [jsIsInteger, h.1], h.2⟩

lemma sanitizeTabSize_invalid (q : ℚ) (h : ¬ isPosInt q) :
    (sanitizeTabSize (some q)).1 = 4 := by
  show (if jsIsInteger q = false ∨ q < 1 then
    ((4 : ℚ), [Diag.invalidTabSize (some q)]) else (q, [])).1 = 4
  rw [if_pos]
  rcases not_and_or.mp h with hd | hle
  · left
    simpa [jsIsInteger] using hd
  · right
    exact not_le.mp hle

lemma mapExc_error {α β : Type} (f : α → Except Unit β) (l : List α)
    (h : ∃ a ∈ l, f a = .error ()) : mapExc f l = .error () := by
  induction l with
  | nil => simp at h
  | cons a rest ih =>
    obtain ⟨x, hx, hfx⟩ := h
    rcases List.mem_cons.mp hx with rfl | hxr
    · unfold mapExc
      rw [hfx]
    · unfold mapExc
      cases hfa : f a with
      | error e => rfl
      | ok b => rw [ih ⟨x, hxr, hfx⟩]

lemma applyEdits_eq_map (edits : List Edit) :
    applyEdits edits = edits.map (fun e =>
      ReplaceCall.mk ⟨⟨e.startLine, 0⟩, ⟨e.endLine, numberMaxValue⟩⟩
        (String.intercalate lineTerminator e.lines)) := by
  have aux : ∀ (l : List Edit) (acc : List ReplaceCall),
      l.foldl (fun builder e =>
        builder ++
          [⟨⟨⟨e.startLine, 0⟩, ⟨e.endLine, numberMaxValue⟩⟩,
            String.intercalate lineTerminator e.lines⟩]) acc =
      acc ++ l.map (fun e =>
        ReplaceCall.mk ⟨⟨e.startLine, 0⟩, ⟨e.endLine, numberMaxValue⟩⟩
          (String.intercalate lineTerminator e.lines)) := by
    intro l
    induction l with
    | nil => intro acc; simp
    | cons e rest ih => intro acc; simp [ih]
  simpa [applyEdits] using aux edits []

/-! The claims. -/

/-- Claim C1: configuration resolution is total — for every
environment-settings input, including when any optional setting is absent
or invalid (the host guarantees the rulers setting is a list, possibly
empty), resolving options never fails and always returns a usable
`WrappingOptions` value: an integer wrapping column at least 1 and an
integer tab size at least 1 (the double-sentence-spacing field is a
boolean by construction). In particular the all-absent environment
resolves to the defaults. -/
theorem configResolution_total :
    (∀ env : Env, isPosInt (getOptionsFromEnvironment env).wrappingColumn ∧
      isPosInt (getOptionsFromEnvironment env).tabSize) ∧
    getOptionsFromEnvironment envAllAbsent = ⟨80, 4, false⟩ := by
  constructor
  · intro env
    exact ⟨sanitizeWrappingColumn_posInt _, sanitizeTabSize_posInt _⟩
  · decide

/-- Claim C2, counterexample: the claim says the column chosen before
sanitization is the first DEFINED value in precedence order, so with the
extension column set to 0 (defined) and rulers [72] the chosen value would
be 0 and the resolved column 80; the code instead skips the falsy 0
(JavaScript `||`), chooses 72 and resolves 72. -/
theorem wrappingColumn_firstDefined_cex :
    chooseWrappingColumn envZeroExtension = 72 ∧
    specFirstDefinedColumn envZeroExtension = 0 ∧
    (getWrappingColumn envZeroExtension).1 = 72 := by
  decide

/-- Claim C2, amended: the wrapping column chosen before sanitization is
the first defined AND nonzero (truthy) value in this order — the extension
wrappingColumn setting, the first rulers entry, the editor wrappingColumn
only when strictly between 0 and 300 — and otherwise 80. With extension
column undefined, rulers empty and editor column at the 300 sentinel the
resolved column is 80; with extension column 100 and rulers [72] it is
100. -/
theorem wrappingColumn_precedence_amended :
    (∀ env : Env, chooseWrappingColumn env = specFirstTruthyColumn env) ∧
    (getWrappingColumn envFallbackSentinel).1 = 80 ∧
    (getWrappingColumn envPrecedence).1 = 100 := by
  refine ⟨?_, by decide, by decide⟩
  intro env
  obtain ⟨ec, rulers, ecol, ts, dss⟩ := env
  rcases ec with _ | q <;> rcases rulers with _ | ⟨r, rest⟩ <;> rcases ecol with _ | e <;>
    simp only [chooseWrappingColumn, specFirstTruthyColumn, specFirstTruthyColumnRulers,
      specFirstTruthyColumnEditor, jsOrNum, guardedEditorColumn, List.head?] <;>
    split_ifs <;>
    first
    | rfl
    | (simp_all; done)
    | (simp_all; exact ne_of_gt (by simp_all))

/-- Claim C3: the returned wrapping column is always a positive integer;
when the value selected by precedence is not a positive integer the result
is 80, and when it is a positive integer above 120 it is returned
unchanged (no clamp), only flagged with a diagnostic. -/
theorem wrappingColumn_sanitized_positive (env : Env) :
    isPosInt (getWrappingColumn env).1 ∧
    (¬ isPosInt (chooseWrappingColumn env) → (getWrappingColumn env).1 = 80) ∧
    (isPosInt (chooseWrappingColumn env) → 120 < chooseWrappingColumn env →
      (getWrappingColumn env).1 = chooseWrappingColumn env ∧
      Diag.largeWrappingColumn (chooseWrappingColumn env) ∈ (getWrappingColumn env).2) := by
  refine ⟨sanitizeWrappingColumn_posInt _,
    fun h => sanitizeWrappingColumn_invalid _ h, fun h hw => ?_⟩
  have hlarge := sanitizeWrappingColumn_large _ h hw
  constructor
  · show (sanitizeWrappingColumn (chooseWrappingColumn env)).1 = _
    rw [hlarge]
  · show _ ∈ (sanitizeWrappingColumn (chooseWrappingColumn env)).2
    rw [hlarge]
    simp

/-- Claim C3, witness: an extension column of 150 is kept unchanged (no
clamp at 120) and flagged as large. -/
theorem wrappingColumn_sanitized_positive_witness :
    (getWrappingColumn envLargeColumn).1 = 150 ∧
    Diag.largeWrappingColumn 150 ∈ (getWrappingColumn envLargeColumn).2 := by
  have hc : chooseWrappingColumn envLargeColumn = 150 := by decide
  have h := (wrappingColumn_sanitized_positive envLargeColumn).2.2
    (by decide) (by rw [hc]; norm_num)
  exact ⟨h.1.trans hc, hc ▸ h.2⟩

/-- Claim C4: the resolved tab size equals the editor value when that value
is a positive integer and 4 otherwise (in particular 4 for an editor tab
size of 0); a tab size exceeding half the wrapping column is still returned
unchanged, the condition only adding a diagnostic. -/
theorem tabSize_sanitized (q : ℚ) (wc : ℚ) :
    (isPosInt q → (getTabSize (some q) wc).1 = q) ∧
    (¬ isPosInt q → (getTabSize (some q) wc).1 = 4) ∧
    (getTabSize none wc).1 = 4 ∧
    (getTabSize (some 0) wc).1 = 4 ∧
    (isPosInt q → wc / 2 < q →
      (getTabSize (some q) wc).1 = q ∧
      Diag.largeTabSize q wc ∈ (getTabSize (some q) wc).2) := by
  refine ⟨fun h => ?_, fun h => sanitizeTabSize_invalid q h, rfl, ?_, fun h hw => ?_⟩
  · show (sanitizeTabSize (some q)).1 = q
    rw [sanitizeTabSize_valid q h]
  · show (sanitizeTabSize (some 0)).1 = 4
    exact sanitizeTabSize_invalid 0 (by decide)
  · have hval := sanitizeTabSize_valid q h
    constructor
    · show (sanitizeTabSize (some q)).1 = q
      rw [hval]
    · show _ ∈ (sanitizeTabSize (some q)).2 ++
        (if wc / 2 < (sanitizeTabSize (some q)).1 then
          [Diag.largeTabSize (sanitizeTabSize (some q)).1 wc] else [])
      rw [hval]
      simp [hw]

/-- Claim C4, witness: an editor tab size of 0 resolves to 4, and a tab
size of 8 against wrapping column 10 is kept (only flagged). -/
theorem tabSize_sanitized_witness :
    (getTabSize (some 0) 80).1 = 4 ∧ (getTabSize (some 8) 10).1 = 8 ∧
    Diag.largeTabSize 8 10 ∈ (getTabSize (some 8) 10).2 := by
  refine ⟨(tabSize_sanitized 0 80).2.2.2.1, ?_, ?_⟩
  · exact ((tabSize_sanitized 8 10).2.2.2.2 (by decide) (by norm_num)).1
  · exact ((tabSize_sanitized 8 10).2.2.2.2 (by decide) (by norm_num)).2

/-- Claim C5: the resolved doubleSentenceSpacing is false when the setting
is absent and is the setting's boolean value when present (spec-modelled:
the manifest-declared default, `package.json` being outside `src/`, is
taken from the spec as false). -/
theorem doubleSentenceSpacing_passthrough (env : Env) :
    (env.doubleSentenceSpacing = none →
      (getOptionsFromEnvironment env).doubleSentenceSpacing = false) ∧
    (∀ b : Bool, env.doubleSentenceSpacing = some b →
      (getOptionsFromEnvironment env).doubleSentenceSpacing = b) := by
  constructor
  · intro h
    show getDoubleSentenceSpacingSetting env.doubleSentenceSpacing = false
    rw [h]
    rfl
  · intro b h
    show getDoubleSentenceSpacingSetting env.doubleSentenceSpacing = b
    rw [h]
    rfl

/-- Claim C5, witness: absent gives false, `some true` gives true. -/
theorem doubleSentenceSpacing_passthrough_witness :
    (getOptionsFromEnvironment envAllAbsent).doubleSentenceSpacing = false ∧
    (getOptionsFromEnvironment envDssTrue).doubleSentenceSpacing = true :=
  ⟨(doubleSentenceSpacing_passthrough envAllAbsent).1 rfl,
   (doubleSentenceSpacing_passthrough envDssTrue).2 true rfl⟩

/-- Claim C6, counterexample: with two selected sections where the wrapper
throws on the first and succeeds on the second, the claim predicts the
second section's edit is still produced; the code's plain `.map` lets the
exception propagate, so synthesis yields no edits at all. -/
theorem sectionFailure_skip_cex :
    getEditsAndSelections idSectionsInSelections idAdjustSelections
      failingFirstProcessor sampleDocument [caretSelection] defaultOptions = .error () ∧
    getEditsAndSelections idSectionsInSelections idAdjustSelections
      failingFirstProcessor sampleDocument [caretSelection] defaultOptions ≠
      .ok ([⟨1, 2, ["wrapped"]⟩], [caretSelection]) := by
  refine ⟨rfl, ?_⟩
  intro h
  rw [show getEditsAndSelections idSectionsInSelections idAdjustSelections
      failingFirstProcessor sampleDocument [caretSelection] defaultOptions =
      .error () from rfl] at h
  exact Except.noConfusion h

/-- Claim C6, amended: if the external wrapper fails for any selected
section, the whole edit synthesis throws — the exception propagates out of
the `.map`, no edits are produced for the other sections, and the batch is
lost (there is no per-section skip). -/
theorem sectionFailure_aborts_batch {σ : Type}
    (sectionsInSelections : List σ → List σ → List Selection → List σ)
    (adjustSelections : List String → List Selection → List Edit → List Selection)
    (documentProcessor : DocumentProcessor σ)
    (documentLines : List String) (selections : List Selection)
    (options : WrappingOptions) :
    (∃ s ∈ sectionsInSelections
        (documentProcessor.findSections documentLines options.tabSize).primary
        (documentProcessor.findSections documentLines options.tabSize).secondary
        selections,
      documentProcessor.editSection options s = .error ()) →
    getEditsAndSelections sectionsInSelections adjustSelections documentProcessor
      documentLines selections options = .error () := by
  intro h
  have hm := mapExc_error
    (fun sectionToEdit => documentProcessor.editSection options sectionToEdit)
    (sectionsInSelections
      (documentProcessor.findSections documentLines options.tabSize).primary
      (documentProcessor.findSections documentLines options.tabSize).secondary
      selections) h
  simp [getEditsAndSelections, hm]

/-- Claim C6, amended, witness: the wrapper failing on the second of two
sections aborts the whole batch. -/
theorem sectionFailure_aborts_batch_witness :
    getEditsAndSelections idSectionsInSelections idAdjustSelections
      failingSecondProcessor sampleDocument [caretSelection] defaultOptions = .error () :=
  sectionFailure_aborts_batch _ _ _ _ _ _ ⟨1, by decide, rfl⟩

/-- Claim C7: the applicator issues exactly one host range-replace per
edit, in order, whose range runs from `(startLine, 0)` to `(endLine,
Number.MAX_VALUE)` (the end-of-line sentinel) and whose text is the edit's
lines joined with the line terminator. -/
theorem applyEdits_one_replace_per_edit :
    (∀ edits : List Edit, (applyEdits edits).length = edits.length) ∧
    (∀ (edits : List Edit) (i : ℕ),
      (applyEdits edits)[i]? = (edits[i]?).map (fun e =>
        ReplaceCall.mk ⟨⟨e.startLine, 0⟩, ⟨e.endLine, numberMaxValue⟩⟩
          (String.intercalate lineTerminator e.lines))) := by
  constructor
  · intro edits
    simp [applyEdits_eq_map]
  · intro edits i
    simp [applyEdits_eq_map]

/-- Claim C8, counterexample: when the wrapper throws for a section, the
claim says the error is caught at the command boundary, logged and
surfaced as a notification; in the code the async `wrapSomething` never
throws synchronously, so the try/catch never fires and the rejection
escapes the handler with an empty host-call trace — no console call and no
notification at all (and also no mutation or selection change). -/
theorem unexpectedError_not_surfaced_cex :
    rewrapCommandHandler idSectionsInSelections idAdjustSelections
      failingFirstProcessor envAllAbsent sampleDocument [caretSelection] false =
      ([], .error ()) := rfl

/-- Claim C8, amended: an error thrown during edit synthesis escapes the
command handler as an unhandled promise rejection — the boundary try/catch
catches only synchronous throws and the async `wrapSomething` rejects its
promise instead of throwing — so nothing is logged, no notification is
shown, and the operation aborts with no document mutation and no selection
change. -/
theorem unexpectedError_escapes_handler {σ : Type}
    (sectionsInSelections : List σ → List σ → List Selection → List σ)
    (adjustSelections : List String → List Selection → List Edit → List Selection)
    (documentProcessor : DocumentProcessor σ)
    (env : Env) (documentLines : List String) (selections : List Selection)
    (editResolvedValue : Bool) :
    getEditsAndSelections sectionsInSelections adjustSelections documentProcessor
      documentLines selections (getOptionsFromEnvironment env) = .error () →
    rewrapCommandHandler sectionsInSelections adjustSelections documentProcessor
      env documentLines selections editResolvedValue = ([], .error ()) := by
  intro h
  simp [rewrapCommandHandler, commandTryBody, wrapSomething, h]

/-- Claim C8, amended, witness: a wrapper failure on the second section
escapes the handler with an empty trace. -/
theorem unexpectedError_escapes_handler_witness :
    rewrapCommandHandler idSectionsInSelections idAdjustSelections
      failingSecondProcessor envAllAbsent sampleDocument [caretSelection] true =
      ([], .error ()) :=
  unexpectedError_escapes_handler _ _ _ _ _ _ _ rfl

/-- Claim C9: in every invocation the host-call trace is either empty (the
synthesis threw before any host call) or consists of the awaited edit
submission followed by the selection assignment — the selections are
assigned only after the edit batch completes, never before. -/
theorem selections_assigned_after_edit {σ : Type}
    (sectionsInSelections : List σ → List σ → List Selection → List σ)
    (adjustSelections : List String → List Selection → List Edit → List Selection)
    (documentProcessor : DocumentProcessor σ)
    (documentLines : List String) (selections : List Selection)
    (options : WrappingOptions) (editResolvedValue : Bool) :
    (wrapSomething sectionsInSelections adjustSelections documentProcessor
      documentLines selections options editResolvedValue).1 = [] ∨
    ∃ replaceCalls newSelections,
      (wrapSomething sectionsInSelections adjustSelections documentProcessor
        documentLines selections options editResolvedValue).1 =
      [HostCall.edit replaceCalls, HostCall.setSelections newSelections] := by
  unfold wrapSomething
  rcases hg : getEditsAndSelections sectionsInSelections adjustSelections
      documentProcessor documentLines selections options with e | ⟨edits, newSelections⟩
  · left
    simp
  · right
    exact ⟨applyEdits edits, newSelections, by simp⟩

/-- Claim C10: the outcome of the wrap operation does not depend on the
boolean the host edit promise resolves with — a resolution to false does
not suppress the selection assignment, which is still issued after the
edit call. -/
theorem selections_assigned_regardless_of_edit_result :
    (∀ (σ : Type) (sectionsInSelections : List σ → List σ → List Selection → List σ)
       (adjustSelections : List String → List Selection → List Edit → List Selection)
       (documentProcessor : DocumentProcessor σ)
       (documentLines : List String) (selections : List Selection)
       (options : WrappingOptions) (b1 b2 : Bool),
      wrapSomething sectionsInSelections adjustSelections documentProcessor
        documentLines selections options b1 =
      wrapSomething sectionsInSelections adjustSelections documentProcessor
        documentLines selections options b2) ∧
    (wrapSomething idSectionsInSelections idAdjustSelections okProcessor
        sampleDocument [caretSelection] defaultOptions false).1 =
      [HostCall.edit [⟨⟨⟨0, 0⟩, ⟨1, numberMaxValue⟩⟩, "wrapped line"⟩],
       HostCall.setSelections [caretSelection]] :=
  ⟨fun _ _ _ _ _ _ _ _ _ => rfl, rfl⟩

end Rewrap
